import Mathlib

/-!
Shallow embedding of the hybrid file-management and search subsystem of
`bolt.diy`: the `LocalFileSystem` and `HybridFileManager` of
`app/lib/stores/files-hybrid.ts` (second document: the hybrid file manager),
the `CodeSandboxInstance` / `MockCodeSandboxInstance` search adapter of
`app/routes/test-file-management.tsx` (second document: the codesandbox
module), and the WebContainer search reconciliation of the `Search`
component (`src/unnamed/part_000`).

Modelling conventions: JavaScript strings are Lean `String`s at character
granularity; a JS `Map` is an insertion-ordered association list; promises
are already-settled outcomes supplied as environment parameters; the
external JS `RegExp` engine is an abstract record of functions (`JsRegex`);
`async` functions that can throw return `Except String`.
-/

namespace BoltDiy

/-- Character-level model of JS `String.prototype.toLowerCase`. -/
def jsToLower (s : String) : String := String.mk (s.toList.map Char.toLower)

/-- First index at which `needle` occurs in `hay`; JS `indexOf`, with `none`
standing for the JS result `-1`. -/
def firstOccurIdx (needle : List Char) : List Char → Option Nat
  | [] => if needle.isEmpty then some 0 else none
  | c :: t => if needle.isPrefixOf (c :: t) then some 0 else (firstOccurIdx needle t).map (· + 1)

/-- JS `s.indexOf(sub)` at character granularity (`none` for `-1`). -/
def jsIndexOf (s sub : String) : Option Nat := firstOccurIdx sub.toList s.toList

/-- JS `s.includes(sub)`. -/
def jsIncludes (s sub : String) : Bool := (jsIndexOf s sub).isSome

/-- JS `s.split(sep)` for a one-character separator, on character lists. -/
def splitOnChar (sep : Char) : List Char → List (List Char)
  | [] => [[]]
  | c :: t =>
    let r := splitOnChar sep t
    if c = sep then [] :: r
    else
      match r with
      | [] => [[c]]
      | h :: t2 => (c :: h) :: t2

/-- JS `s.split(sep)` returning strings. -/
def jsSplit (s : String) (sep : Char) : List String := (splitOnChar sep s.toList).map String.mk

/-- JS `s.startsWith(t)`. -/
def strStartsWith (s t : String) : Bool := t.toList.isPrefixOf s.toList

/-- JS `s.includes(c)` for a single character. -/
def strContainsChar (s : String) (c : Char) : Bool := s.toList.contains c

/-- Index of the last occurrence of `c` (JS `lastIndexOf`, `none` for `-1`). -/
def lastIndexOfChar (c : Char) : List Char → Option Nat
  | [] => none
  | x :: t =>
    match lastIndexOfChar c t with
    | some i => some (i + 1)
    | none => if x = c then some 0 else none

/-- FileNode of the hybrid file manager.  The `lastModified : Date` field is
a wall-clock timestamp set from `new Date()`; no claim consults it and it is
omitted from the embedding. -/
structure FileNode where
  path : String
  content : String
  isBinary : Bool
  deriving DecidableEq

/-- Insertion-ordered association list modelling the JS `Map` that backs
`LocalFileSystem._files`.  The `Map` API keeps keys unique. -/
abbrev LocalFS := List (String × FileNode)

/-- JS `Map.get`. -/
def mapGet : LocalFS → String → Option FileNode
  | [], _ => none
  | e :: t, k => if e.1 = k then some e.2 else mapGet t k

/-- JS `Map.has`. -/
def mapHas (fs : LocalFS) (k : String) : Bool := (mapGet fs k).isSome

/-- JS `Map.set`: replace the existing entry in place, else append; insertion
order is preserved. -/
def mapSet : LocalFS → String → FileNode → LocalFS
  | [], k, v => [(k, v)]
  | e :: t, k, v => if e.1 = k then (k, v) :: t else e :: mapSet t k v

/-- JS `Map.delete`: drop the entry with the given key.  Keys are unique in
any reachable `Map` state, so recursing past the hit coincides with deleting
the single entry. -/
def mapDelete : LocalFS → String → LocalFS
  | [], _ => []
  | e :: t, k => if e.1 = k then mapDelete t k else e :: mapDelete t k

/-- Result shape of `stat` in the unified interface. -/
structure StatInfo where
  isFile : Bool
  isDirectory : Bool
  size : Nat
  deriving DecidableEq

namespace LocalFileSystem

/-- Placeholder node materialised by `mkdir` (empty content is the structural
convention for a directory). -/
def dirNode (p : String) : FileNode := { path := p, content := "", isBinary := false }

/-- LocalFileSystem.readFile.  The constructor's three seeded scaffold files
are ordinary entries of the store; all theorems quantify over arbitrary
store states, which subsume the seeded one. -/
def readFile (fs : LocalFS) (p : String) : Except String String :=
  match mapGet fs p with
  | none => Except.error ("File not found: " ++ p)
  | some f => Except.ok f.content

/-- The listing prefix `path === '/' ? '/' : path + '/'` shared by `readdir`
and the recursive branch of `deleteDirectory`. -/
def dirPfx (p : String) : String := if p = "/" then "/" else p ++ "/"

/-- LocalFileSystem.readdir: immediate children only, by prefix matching and
filtering out entries whose relative path contains a further separator. -/
def readdir (fs : LocalFS) (p : String) : List String :=
  fs.filterMap (fun e =>
    if strStartsWith e.1 (dirPfx p) && !(e.1 == p) then
      let rel := String.mk (e.1.toList.drop (dirPfx p).toList.length)
      if !(strContainsChar rel '/') then some rel else none
    else none)

/-- Cumulative-segment loop of the recursive `mkdir` branch. -/
def mkdirSegments (fs : LocalFS) (parts : List String) (currentPath : String) : LocalFS :=
  match parts with
  | [] => fs
  | part :: rest =>
    let cp := currentPath ++ "/" ++ part
    let fs2 := if mapHas fs cp then fs else mapSet fs cp (dirNode cp)
    mkdirSegments fs2 rest cp

/-- LocalFileSystem.mkdir. -/
def mkdir (fs : LocalFS) (p : String) (recursive : Bool) : Except String LocalFS :=
  if mapHas fs p then
    if recursive then Except.ok fs else Except.error ("Directory already exists: " ++ p)
  else if recursive then
    Except.ok (mkdirSegments fs ((jsSplit p '/').filter (fun s => !(s == ""))) "")
  else Except.ok (mapSet fs p (dirNode p))

/-- Parent-directory computation `path.substring(0, path.lastIndexOf('/'))`;
for a path without `/` the JS call yields `substring(0, -1) = ""`. -/
def parentDirOf (p : String) : String :=
  match lastIndexOfChar '/' p.toList with
  | none => ""
  | some i => String.mk (p.toList.take i)

/-- LocalFileSystem.writeFile: materialise the parent chain when the parent
string is truthy and differs from the path, then store the node. -/
def writeFile (fs : LocalFS) (p c : String) : Except String LocalFS :=
  let parentDir := parentDirOf p
  match (if !(parentDir == "") && !(parentDir == p) then mkdir fs parentDir true
         else Except.ok fs) with
  | Except.error e => Except.error e
  | Except.ok fs1 => Except.ok (mapSet fs1 p { path := p, content := c, isBinary := false })

/-- LocalFileSystem.deleteFile. -/
def deleteFile (fs : LocalFS) (p : String) : Except String LocalFS :=
  if !(mapHas fs p) then Except.error ("File not found: " ++ p)
  else Except.ok (mapDelete fs p)

/-- LocalFileSystem.deleteDirectory: error when missing; when non-recursive
and the listing is non-empty, error without modifying the store; otherwise
delete the path and, when recursive, every entry whose key starts with the
listing prefix. -/
def deleteDirectory (fs : LocalFS) (p : String) (recursive : Bool) : Except String LocalFS :=
  if !(mapHas fs p) then Except.error ("Directory not found: " ++ p)
  else if !recursive && !(readdir fs p).isEmpty then Except.error ("Directory not empty: " ++ p)
  else
    let fs1 := mapDelete fs p
    if recursive then Except.ok (fs1.filter (fun e => !(strStartsWith e.1 (dirPfx p))))
    else Except.ok fs1

/-- LocalFileSystem.exists. -/
def existsPath (fs : LocalFS) (p : String) : Bool := mapHas fs p

/-- LocalFileSystem.stat: empty content is reported as a directory. -/
def stat (fs : LocalFS) (p : String) : Except String StatInfo :=
  match mapGet fs p with
  | none => Except.error ("File not found: " ++ p)
  | some f =>
    Except.ok { isFile := !(f.content == ""), isDirectory := f.content == "",
                size := f.content.length }

end LocalFileSystem

/-- Search result shape of the CodeSandbox search adapter
(`CodeSandboxSearchResult`). -/
structure CSSearchResult where
  path : String
  lineNumber : Nat
  previewText : String
  matchCharStart : Nat
  matchCharEnd : Nat
  deriving DecidableEq

/-- Options record of the CodeSandbox search adapter
(`CodeSandboxSearchOptions`), with the defaults used at call sites. -/
structure CSSearchOptions where
  folders : List String := ["/"]
  includePattern : Option String := none
  excludePattern : Option String := none
  maxResults : Option Nat := none
  useRegExp : Bool := false
  caseSensitive : Bool := false
  wholeWord : Bool := false

/-- Abstract model of the external JS `RegExp` engine: `isValid pat` is
whether `new RegExp(pat)` succeeds (flags used by the code are always
legal), `test pat s` is `new RegExp(pat).test(s)` for a valid pattern, and
`firstIndex pat flags s` is the index of the first `exec` match (`none`
when there is no match).  Its value on invalid patterns is irrelevant:
the embedding routes those through the thrown-exception paths. -/
structure JsRegex where
  isValid : String → Bool
  test : String → String → Bool
  firstIndex : String → String → String → Option Nat

/-- Concrete `JsRegex` instance for metacharacter-free patterns, on which the
JS engine's matching coincides with substring occurrence (for example
`new RegExp("node_modules").test(s)` is true exactly when `s` contains
`node_modules`). -/
def substrRegex : JsRegex where
  isValid := fun _ => true
  test := fun pat s => (jsIndexOf s pat).isSome
  firstIndex := fun pat _ s => jsIndexOf s pat

/-- The `searchQuery` local of the search loops: the query, case-folded when
the search is case-insensitive. -/
def effectiveQuery (opts : CSSearchOptions) (query : String) : String :=
  if opts.caseSensitive then query else jsToLower query

/-- The `searchLine` local of the search loops: the line, case-folded when
the search is case-insensitive. -/
def effectiveLine (opts : CSSearchOptions) (line : String) : String :=
  if opts.caseSensitive then line else jsToLower line

/-- Per-line match-strategy dispatch of `CodeSandboxInstance._searchInFile`:
regular expression first, then whole word, then plain `indexOf`; the query
and line are case-folded first when the search is case-insensitive.  An
invalid pattern in regex mode hits `catch { continue }`, contributing no
match for the line. -/
def lineMatchIndex (R : JsRegex) (query : String) (opts : CSSearchOptions)
    (line : String) : Option Nat :=
  if opts.useRegExp then
    if R.isValid (effectiveQuery opts query) then
      R.firstIndex (effectiveQuery opts query) (if opts.caseSensitive then "g" else "gi")
        (effectiveLine opts line)
    else none
  else if opts.wholeWord then
    R.firstIndex ("\\b" ++ effectiveQuery opts query ++ "\\b")
      (if opts.caseSensitive then "g" else "gi") (effectiveLine opts line)
  else jsIndexOf (effectiveLine opts line) (effectiveQuery opts query)

/-- Exclusion test of `_searchInFile`: the check runs only for a truthy
(non-empty) `excludePattern`; an invalid pattern makes `new RegExp` throw,
which the enclosing catch turns into zero matches for the file, the same
observable outcome as an exclusion hit. -/
def excludedByOption (R : JsRegex) (pat? : Option String) (filePath : String) : Bool :=
  match pat? with
  | none => false
  | some pat => if pat = "" then false else (!R.isValid pat || R.test pat filePath)

/-- Inclusion test of `_searchInFile`: for a truthy `includePattern` the file
is skipped when the pattern does not match (or `new RegExp` throws). -/
def rejectedByInclude (R : JsRegex) (pat? : Option String) (filePath : String) : Bool :=
  match pat? with
  | none => false
  | some pat => if pat = "" then false else (!R.isValid pat || !R.test pat filePath)

/-- CodeSandboxInstance._searchInFile on one file: `content` is what
`readFile` returned (its catch yields `""` on a read failure, and empty
content is skipped).  In whole-word mode an invalid derived pattern makes
`new RegExp` throw outside any inner catch, aborting the file with no
matches.  Matches are buffered per line in order. -/
def searchInFile (R : JsRegex) (filePath query : String) (opts : CSSearchOptions)
    (content : String) : List CSSearchResult :=
  if excludedByOption R opts.excludePattern filePath then []
  else if rejectedByInclude R opts.includePattern filePath then []
  else if content = "" then []
  else if (!opts.useRegExp) && opts.wholeWord
      && !R.isValid ("\\b" ++ effectiveQuery opts query ++ "\\b") then []
  else
    (jsSplit content '\n').enum.filterMap (fun pair =>
      (lineMatchIndex R query opts pair.2).map (fun idx =>
        { path := filePath, lineNumber := pair.1 + 1, previewText := pair.2,
          matchCharStart := idx, matchCharEnd := idx + query.length }))

/-- Progress-callback invocations produced for one file by `_searchInFile`:
the buffered matches are flushed as a single batch, and only when the file
produced at least one match. -/
def searchInFileBatches (R : JsRegex) (filePath query : String) (opts : CSSearchOptions)
    (content : String) : List (String × List CSSearchResult) :=
  let ms := searchInFile R filePath query opts content
  if ms.isEmpty then [] else [(filePath, ms)]

/-- MockCodeSandboxInstance.textSearch over the instance's file map: every
file is scanned with a plain (optionally case-folded) `indexOf`; the
`folders`, `includePattern`, `excludePattern` and `maxResults` options are
never consulted.  The mock constructor's seeded files are ordinary entries
of `files`; the claims quantify over arbitrary file maps. -/
def mockTextSearch (files : List (String × String)) (query : String)
    (opts : CSSearchOptions) : List CSSearchResult :=
  files.flatMap (fun fe =>
    (jsSplit fe.2 '\n').enum.filterMap (fun pair =>
      (jsIndexOf (effectiveLine opts pair.2) (effectiveQuery opts query)).map (fun idx =>
        { path := fe.1, lineNumber := pair.1 + 1, previewText := pair.2,
          matchCharStart := idx, matchCharEnd := idx + query.length })))

/-- Raw match range reported by the WebContainer native search. -/
structure WCRange where
  startLineNumber : Int
  startColumn : Int
  endColumn : Int
  deriving DecidableEq

/-- Entry of the preview window's `matches` array; only its declared starting
line number is consulted. -/
structure WCPreviewMatch where
  startLineNumber : Int
  deriving DecidableEq

/-- Preview window accompanying the raw ranges of one API match.  The source
field name is `matches`, a Lean keyword, hence `matchArr` here. -/
structure WCPreview where
  text : String
  matchArr : List WCPreviewMatch
  deriving DecidableEq

/-- One API match of the WebContainer native search: raw ranges plus preview. -/
structure WCApiMatch where
  preview : WCPreview
  ranges : List WCRange

/-- Display row produced by the `Search` component. -/
structure DisplayMatch where
  path : String
  lineNumber : Int
  previewText : String
  matchCharStart : Int
  matchCharEnd : Int
  deriving DecidableEq

/-- Per-range reconciliation inside `performWebContainerSearch`'s progress
callback: locate the match's line within the preview text using the
preview's declared starting line number, falling back to the first preview
line when the computed index is out of range (or when the preview declares
no matches, leaving the index at `-1`). -/
def reconcileRange (filePath : String) (preview : WCPreview) (range : WCRange) : DisplayMatch :=
  let previewLines := jsSplit preview.text '\n'
  let lineIndexInPreview : Int :=
    match preview.matchArr with
    | [] => -1
    | pm :: _ => range.startLineNumber - pm.startLineNumber
  let previewLineText :=
    if 0 ≤ lineIndexInPreview ∧ lineIndexInPreview < (previewLines.length : Int) then
      previewLines.getD lineIndexInPreview.toNat "(Preview line not found)"
    else previewLines.getD 0 "(Preview unavailable)"
  { path := filePath, lineNumber := range.startLineNumber, previewText := previewLineText,
    matchCharStart := range.startColumn, matchCharEnd := range.endColumn }

/-- All display matches produced by the progress callback for one file. -/
def wcProgressMatches (filePath : String) (apiMatches : List WCApiMatch) : List DisplayMatch :=
  apiMatches.flatMap (fun m => m.ranges.map (reconcileRange filePath m.preview))

/-- The three providers of the fallback chain. -/
inductive Provider
  | codesandbox
  | webcontainer
  | local
  deriving DecidableEq

/-- Settlement of the `sdk.sandboxes.create` promise relative to the 8000 ms
timeout that `CodeSandboxInstance.initialize` races it against. -/
inductive CreatePromise
  | resolvesBefore
  | rejectsBefore (msg : String)
  | neverSettles
  deriving DecidableEq

/-- Outcome of `sandbox.connect()` once creation has resolved. -/
inductive ConnectOutcome
  | ok
  | fails (msg : String)
  deriving DecidableEq

/-- Error classification of `CodeSandboxInstance.initialize`'s catch block:
DataView / out-of-bounds / RangeError messages are replaced by the fallback
message, others pass through. -/
def classifyCsbError (msg : String) : String :=
  if jsIncludes msg "DataView" || jsIncludes msg "Offset is outside the bounds"
      || jsIncludes msg "RangeError" then
    "CodeSandbox SDK connection error - using local fallback"
  else msg

/-- CodeSandboxInstance.initialize as a function of the environment: the
race rejects with `Sandbox creation timeout` when creation has not settled
after 8000 ms; any failure is rethrown as
`CodeSandbox initialization failed: <classified message>`. -/
def csbInitialize : CreatePromise → ConnectOutcome → Except String Unit
  | CreatePromise.neverSettles, _ =>
    Except.error ("CodeSandbox initialization failed: "
      ++ classifyCsbError "Sandbox creation timeout")
  | CreatePromise.rejectsBefore m, _ =>
    Except.error ("CodeSandbox initialization failed: " ++ classifyCsbError m)
  | CreatePromise.resolvesBefore, ConnectOutcome.fails m =>
    Except.error ("CodeSandbox initialization failed: " ++ classifyCsbError m)
  | CreatePromise.resolvesBefore, ConnectOutcome.ok => Except.ok ()

/-- Fields of a `CodeSandboxInstance` that its health check consults.  The
constructor leaves `_fileSystem` null and `initialize()` never assigns it,
so after a successful `initialize()` the instance is
`{ initialized := true, fileSystemAttached := false }`. -/
structure CsbInstanceState where
  initialized : Bool
  fileSystemAttached : Bool
  deriving DecidableEq

/-- Instance state after a successful `initialize()`. -/
def csbStateAfterInit : CsbInstanceState := { initialized := true, fileSystemAttached := false }

/-- CodeSandboxInstance.readdir: throws unless both `_initialized` and
`_fileSystem` are set; otherwise delegates to the remote file system, whose
outcome is the `remoteList` environment parameter (the inner catch already
converts remote failures into `[]`). -/
def csbReaddir (remoteList : Except String (List String)) (st : CsbInstanceState) :
    Except String (List String) :=
  if st.initialized && st.fileSystemAttached then remoteList
  else Except.error "CodeSandbox not initialized"

/-- CodeSandboxInstance.healthCheck: false before initialization, otherwise
the truth of `readdir('/')` not throwing. -/
def csbHealthCheck (remoteList : Except String (List String)) (st : CsbInstanceState) : Bool :=
  if st.initialized = false then false
  else
    match csbReaddir remoteList st with
    | Except.ok _ => true
    | Except.error _ => false

/-- What the module-level `codesandbox` promise resolves to. -/
inductive CsbModuleResult
  | rejected
  | mockInstance
  | realInstance
  deriving DecidableEq

/-- Module-level wiring of the `codesandbox` promise: a falsy API key makes
the promise reject outright; otherwise a real instance is initialized and
any initialization failure is replaced by a mock instance (whose own
`initialize` always succeeds). -/
def csbModule (apiKey : Option String) (cp : CreatePromise) (co : ConnectOutcome) :
    CsbModuleResult :=
  match apiKey with
  | none => CsbModuleResult.rejected
  | some k =>
    if k = "" then CsbModuleResult.rejected
    else
      match csbInitialize cp co with
      | Except.ok _ => CsbModuleResult.realInstance
      | Except.error _ => CsbModuleResult.mockInstance

/-- Manager-level observable state after `HybridFileManager._initialize`. -/
structure InitResult where
  provider : Provider
  isReady : Bool
  error : Option String
  deriving DecidableEq

/-- HybridFileManager._initialize as a function of the environment: await
the `codesandbox` promise (a mock resolution is detected via
`isMockInstance()` and treated as the local provider); a real instance is
health-checked and, the check failing, an error is thrown into the catch
that tries WebContainer; a rejected promise lands in the same catch; inside
it, `await webcontainer` failing falls back to the local file system.  All
paths end with `_isReady = true`; the outer catch that would set `_error`
is unreachable, so `error` stays `none`. -/
def hybridInitialize (apiKey : Option String) (cp : CreatePromise) (co : ConnectOutcome)
    (remoteList : Except String (List String)) (wcAvailable : Bool) : InitResult :=
  match csbModule apiKey cp co with
  | CsbModuleResult.mockInstance =>
    { provider := Provider.local, isReady := true, error := none }
  | CsbModuleResult.realInstance =>
    if csbHealthCheck remoteList csbStateAfterInit then
      { provider := Provider.codesandbox, isReady := true, error := none }
    else if wcAvailable then
      { provider := Provider.webcontainer, isReady := true, error := none }
    else
      { provider := Provider.local, isReady := true, error := none }
  | CsbModuleResult.rejected =>
    if wcAvailable then
      { provider := Provider.webcontainer, isReady := true, error := none }
    else
      { provider := Provider.local, isReady := true, error := none }

/-- Uniform operation set exposed by a selected backing adapter
(`FileSystemOperation`); `σ` is the adapter's backing state, threaded
explicitly.  The remote adapters' behaviour is arbitrary here: the
manager-level claims hold for every adapter. -/
structure Adapter (σ : Type) where
  readFile : σ → String → Except String String × σ
  writeFile : σ → String → String → Except String Unit × σ
  readdir : σ → String → Except String (List String) × σ
  mkdir : σ → String → Bool → Except String Unit × σ
  deleteFile : σ → String → Except String Unit × σ
  deleteDirectory : σ → String → Bool → Except String Unit × σ
  existsPath : σ → String → Except String Bool × σ
  stat : σ → String → Except String StatInfo × σ

/-- The `LocalFileSystem` packaged as an adapter over its store state. -/
def localAdapter : Adapter LocalFS where
  readFile := fun s p => (LocalFileSystem.readFile s p, s)
  writeFile := fun s p c =>
    match LocalFileSystem.writeFile s p c with
    | Except.ok s2 => (Except.ok (), s2)
    | Except.error e => (Except.error e, s)
  readdir := fun s p => (Except.ok (LocalFileSystem.readdir s p), s)
  mkdir := fun s p r =>
    match LocalFileSystem.mkdir s p r with
    | Except.ok s2 => (Except.ok (), s2)
    | Except.error e => (Except.error e, s)
  deleteFile := fun s p =>
    match LocalFileSystem.deleteFile s p with
    | Except.ok s2 => (Except.ok (), s2)
    | Except.error e => (Except.error e, s)
  deleteDirectory := fun s p r =>
    match LocalFileSystem.deleteDirectory s p r with
    | Except.ok s2 => (Except.ok (), s2)
    | Except.error e => (Except.error e, s)
  existsPath := fun s p => (Except.ok (LocalFileSystem.existsPath s p), s)
  stat := fun s p => (LocalFileSystem.stat s p, s)

/-- Mutable fields of `HybridFileManager` once initialization has finished:
the readiness triple plus the selected adapter and its backing state.  The
unified operations read `_isReady`, then delegate to `_fileSystem`. -/
structure HybridManager (σ : Type) where
  provider : Provider
  isReady : Bool
  error : Option String
  adapter : Adapter σ
  fsState : σ

namespace HybridManager

/-- HybridFileManager.readFile. -/
def readFile {σ : Type} (m : HybridManager σ) (p : String) :
    Except String String × HybridManager σ :=
  if m.isReady = false then (Except.error "File manager not ready", m)
  else
    let r := m.adapter.readFile m.fsState p
    (r.1, { m with fsState := r.2 })

/-- HybridFileManager.writeFile. -/
def writeFile {σ : Type} (m : HybridManager σ) (p c : String) :
    Except String Unit × HybridManager σ :=
  if m.isReady = false then (Except.error "File manager not ready", m)
  else
    let r := m.adapter.writeFile m.fsState p c
    (r.1, { m with fsState := r.2 })

/-- HybridFileManager.readdir. -/
def readdir {σ : Type} (m : HybridManager σ) (p : String) :
    Except String (List String) × HybridManager σ :=
  if m.isReady = false then (Except.error "File manager not ready", m)
  else
    let r := m.adapter.readdir m.fsState p
    (r.1, { m with fsState := r.2 })

/-- HybridFileManager.mkdir. -/
def mkdir {σ : Type} (m : HybridManager σ) (p : String) (recursive : Bool) :
    Except String Unit × HybridManager σ :=
  if m.isReady = false then (Except.error "File manager not ready", m)
  else
    let r := m.adapter.mkdir m.fsState p recursive
    (r.1, { m with fsState := r.2 })

/-- HybridFileManager.deleteFile. -/
def deleteFile {σ : Type} (m : HybridManager σ) (p : String) :
    Except String Unit × HybridManager σ :=
  if m.isReady = false then (Except.error "File manager not ready", m)
  else
    let r := m.adapter.deleteFile m.fsState p
    (r.1, { m with fsState := r.2 })

/-- HybridFileManager.deleteDirectory. -/
def deleteDirectory {σ : Type} (m : HybridManager σ) (p : String) (recursive : Bool) :
    Except String Unit × HybridManager σ :=
  if m.isReady = false then (Except.error "File manager not ready", m)
  else
    let r := m.adapter.deleteDirectory m.fsState p recursive
    (r.1, { m with fsState := r.2 })

/-- HybridFileManager.exists. -/
def existsPath {σ : Type} (m : HybridManager σ) (p : String) :
    Except String Bool × HybridManager σ :=
  if m.isReady = false then (Except.error "File manager not ready", m)
  else
    let r := m.adapter.existsPath m.fsState p
    (r.1, { m with fsState := r.2 })

/-- HybridFileManager.stat. -/
def stat {σ : Type} (m : HybridManager σ) (p : String) :
    Except String StatInfo × HybridManager σ :=
  if m.isReady = false then (Except.error "File manager not ready", m)
  else
    let r := m.adapter.stat m.fsState p
    (r.1, { m with fsState := r.2 })

/-- HybridFileManager.healthCheck: a lightweight `readdir('/')` probe whose
outcome is reported as a boolean; exceptions map to `false`. -/
def healthCheck {σ : Type} (m : HybridManager σ) : Bool × HybridManager σ :=
  if m.isReady = false then (false, m)
  else
    let r := m.readdir "/"
    match r.1 with
    | Except.ok _ => (true, r.2)
    | Except.error _ => (false, r.2)

end HybridManager

/-- Preservation of the manager-level selection state: provider, readiness,
error, and the identity of the selected adapter. -/
def preservesCore {σ : Type} (m m2 : HybridManager σ) : Prop :=
  m2.provider = m.provider ∧ m2.isReady = m.isReady ∧ m2.error = m.error
    ∧ m2.adapter = m.adapter

end BoltDiy

namespace BoltDiy

/-- JS-Map lookup after an in-place set at the same key yields the new node. -/
theorem mapGet_mapSet_self (fs : LocalFS) (k : String) (v : FileNode) :
    mapGet (mapSet fs k v) k = some v := by
  induction fs with
  | nil => simp [mapSet, mapGet]
  | cons e t ih =>
    by_cases h : e.1 = k
    · simp [mapSet, h, mapGet]
    · simp [mapSet, h, mapGet, ih]

/-- Recursive `mkdir` never throws: both of its reachable branches succeed. -/
theorem mkdir_true_ok (fs : LocalFS) (p : String) :
    ∃ fs2, LocalFileSystem.mkdir fs p true = Except.ok fs2 := by
  unfold LocalFileSystem.mkdir
  by_cases h : mapHas fs p <;> simp [h]

/-- C3: on the local provider, for every store state, path `p` and content
`c`, `writeFile(p, c)` followed by `readFile(p)` returns exactly `c`. -/
theorem c3_write_read_roundtrip (fs : LocalFS) (p c : String) :
    (LocalFileSystem.writeFile fs p c).bind (fun fs2 => LocalFileSystem.readFile fs2 p)
      = Except.ok c := by
  unfold LocalFileSystem.writeFile
  by_cases hb : (!(LocalFileSystem.parentDirOf p == "")
      && !(LocalFileSystem.parentDirOf p == p)) = true
  · obtain ⟨fs2, h2⟩ := mkdir_true_ok fs (LocalFileSystem.parentDirOf p)
    simp [hb, h2, Except.bind, LocalFileSystem.readFile, mapGet_mapSet_self]
  · simp [hb, Except.bind, LocalFileSystem.readFile, mapGet_mapSet_self]

/-- C2: for every outcome of the provider-probing chain (remote resolves to a
real instance, to a mock, or the module promise rejects; the embedded
runtime available or not), `initialize()` terminates with `isReady = true`
and no initialization-time failure is surfaced (`error` stays `none`); the
local provider is the terminal fallback that never fails. -/
theorem c2_initialize_always_ready (apiKey : Option String) (cp : CreatePromise)
    (co : ConnectOutcome) (remoteList : Except String (List String)) (wc : Bool) :
    (hybridInitialize apiKey cp co remoteList wc).isReady = true ∧
    (hybridInitialize apiKey cp co remoteList wc).error = none := by
  unfold hybridInitialize
  cases h : csbModule apiKey cp co <;> cases wc <;>
    simp [h, show ∀ rl, csbHealthCheck rl csbStateAfterInit = false from fun _ => rfl]

/-- C1 (amended): when the remote provider's creation never settles before
the timeout (API key present), the `codesandbox` module resolves to a mock
instance, the manager treats the mock as the local provider, and the active
provider after `initialize()` is `local` — never the remote provider; the
WebContainer attempt is bypassed. -/
theorem c1_amended_timeout_falls_back_to_local (k : String) (hk : k ≠ "") (co : ConnectOutcome)
    (remoteList : Except String (List String)) (wc : Bool) :
    (hybridInitialize (some k) CreatePromise.neverSettles co remoteList wc).provider
      = Provider.local ∧
    (hybridInitialize (some k) CreatePromise.neverSettles co remoteList wc).provider
      ≠ Provider.codesandbox := by
  unfold hybridInitialize csbModule csbInitialize
  simp [hk]

/-- C1 (counterexample): with an API key present, the remote creation never
settling, and the WebContainer available, the active provider after
`initialize()` is `local`, not the next provider in priority order
(`webcontainer`) as the claim states. -/
theorem c1_counterexample :
    (hybridInitialize (some "key") CreatePromise.neverSettles ConnectOutcome.ok
        (Except.ok []) true).provider = Provider.local ∧
    ¬ (hybridInitialize (some "key") CreatePromise.neverSettles ConnectOutcome.ok
        (Except.ok []) true).provider = Provider.webcontainer := by decide

/-- C1 (witness): the amended statement evaluated at a concrete environment. -/
theorem c1_witness :
    ("key" : String) ≠ "" ∧
    ((hybridInitialize (some "key") CreatePromise.neverSettles ConnectOutcome.ok
        (Except.ok []) false).provider = Provider.local ∧
     (hybridInitialize (some "key") CreatePromise.neverSettles ConnectOutcome.ok
        (Except.ok []) false).provider ≠ Provider.codesandbox) :=
  ⟨by decide, c1_amended_timeout_falls_back_to_local "key" (by decide) ConnectOutcome.ok
    (Except.ok []) false⟩

/-- C5: the case-insensitive non-regex walk search matches the case-folded
query against case-folded lines while reporting the original line as
`previewText`, a 1-based line number, and the offsets of the first
occurrence with `matchCharEnd = matchCharStart + query.length`: the file
`"foo bar\nbaz foo"` searched for `"FOO"` yields exactly lines 1 and 2 with
chars 0-3 and 4-7, delivered as one batch for the file, and the line
`"Hello from Bolt!"` searched for `"HELLO"` yields that original line with
chars 0-5. -/
theorem c5_search_scenarios (R : JsRegex) :
    searchInFile R "/a.txt" "FOO" { caseSensitive := false } "foo bar\nbaz foo" =
      [⟨"/a.txt", 1, "foo bar", 0, 3⟩, ⟨"/a.txt", 2, "baz foo", 4, 7⟩] ∧
    searchInFileBatches R "/a.txt" "FOO" { caseSensitive := false } "foo bar\nbaz foo" =
      [("/a.txt", [⟨"/a.txt", 1, "foo bar", 0, 3⟩, ⟨"/a.txt", 2, "baz foo", 4, 7⟩])] ∧
    searchInFile R "/src/App.tsx" "HELLO" { caseSensitive := false } "Hello from Bolt!" =
      [⟨"/src/App.tsx", 1, "Hello from Bolt!", 0, 5⟩] :=
  ⟨rfl, rfl, rfl⟩

/-- C9 (amended): the walk-based search does not enforce `maxResults` — its
results, for the per-file scan and for the mock search, are identical for
every `maxResults` value, so the emitted total is not capped by it. -/
theorem c9_amended_max_results_not_enforced (R : JsRegex) (filePath query content : String)
    (opts : CSSearchOptions) (n : Option Nat) (files : List (String × String)) :
    searchInFile R filePath query { opts with maxResults := n } content
      = searchInFile R filePath query opts content ∧
    mockTextSearch files query { opts with maxResults := n }
      = mockTextSearch files query opts := by
  cases opts
  exact ⟨rfl, rfl⟩

/-- C9 (counterexample): a search run with `maxResults = 1` emits 2 matches,
so the total emitted through the progress callback is not at most
`maxResults`. -/
theorem c9_counterexample :
    (searchInFile substrRegex "/a.txt" "FOO" { caseSensitive := false, maxResults := some 1 }
        "foo bar\nbaz foo").length = 2 ∧
    ¬ ((searchInFile substrRegex "/a.txt" "FOO" { caseSensitive := false, maxResults := some 1 }
        "foo bar\nbaz foo").length ≤ 1) := by decide

/-- JS-Map lookup after `Map.delete`: hit at the deleted key gives `none`,
other keys are untouched. -/
theorem mapGet_mapDelete (fs : LocalFS) (k q : String) :
    mapGet (mapDelete fs k) q = if q = k then none else mapGet fs q := by
  induction fs with
  | nil => simp [mapDelete, mapGet]
  | cons e t ih =>
    by_cases hek : e.1 = k <;> by_cases heq : e.1 = q
    · subst hek; subst heq; simp [mapDelete, ih]
    · subst hek; simp [mapDelete, mapGet, heq, ih]
    · subst heq; simp [mapDelete, hek, mapGet, ih]
    · simp [mapDelete, hek, mapGet, heq, ih]

/-- Lookup after filtering out every key starting with a prefix. -/
theorem mapGet_filter_not_startsWith (pfx : String) (fs : LocalFS) (q : String) :
    mapGet (fs.filter (fun e => !(strStartsWith e.1 pfx))) q
      = if strStartsWith q pfx then none else mapGet fs q := by
  induction fs with
  | nil => simp [mapGet]
  | cons e t ih =>
    by_cases hs : strStartsWith e.1 pfx = true <;> by_cases heq : e.1 = q
    · subst heq; simp [List.filter_cons, hs, ih]
    · simp [List.filter_cons, hs, mapGet, heq, ih]
    · subst heq; simp [List.filter_cons, hs, mapGet, ih]
    · simp [List.filter_cons, hs, mapGet, heq, ih]

/-- C4: on the local provider, `deleteDirectory(p, recursive := false)` on an
existing directory with at least one immediate child fails with the
not-empty error (returning no new state, so nothing is removed), while
`deleteDirectory(p, recursive := true)` succeeds and removes `p` together
with exactly the paths that have the directory prefix `p + "/"` (its
descendants): afterwards `exists` is false for `p` and for every former
descendant, and every other entry is untouched. -/
theorem c4_delete_directory (fs : LocalFS) (p : String) (hp : mapHas fs p = true) :
    (LocalFileSystem.readdir fs p ≠ [] →
      LocalFileSystem.deleteDirectory fs p false
        = Except.error ("Directory not empty: " ++ p)) ∧
    ∃ fs2, LocalFileSystem.deleteDirectory fs p true = Except.ok fs2 ∧
      LocalFileSystem.existsPath fs2 p = false ∧
      (∀ q, strStartsWith q (LocalFileSystem.dirPfx p) = true →
        LocalFileSystem.existsPath fs2 q = false) ∧
      (∀ q, q ≠ p → strStartsWith q (LocalFileSystem.dirPfx p) = false →
        mapGet fs2 q = mapGet fs q) := by
  constructor
  · intro hne
    unfold LocalFileSystem.deleteDirectory
    simp [hp, List.isEmpty_iff, hne]
  · refine ⟨(mapDelete fs p).filter
      (fun e => !(strStartsWith e.1 (LocalFileSystem.dirPfx p))), ?_, ?_, ?_, ?_⟩
    · unfold LocalFileSystem.deleteDirectory
      simp [hp]
    · unfold LocalFileSystem.existsPath mapHas
      rw [mapGet_filter_not_startsWith, mapGet_mapDelete]
      simp
    · intro q hq
      unfold LocalFileSystem.existsPath mapHas
      rw [mapGet_filter_not_startsWith]
      simp [hq]
    · intro q hq1 hq2
      rw [mapGet_filter_not_startsWith, mapGet_mapDelete]
      simp [hq1, hq2]

/-- C4 (witness): on the store holding `/d` and its child `/d/a`, the
non-recursive delete fails with the not-empty error and the recursive
delete empties the store, after which `exists` is false for both paths. -/
theorem c4_witness :
    LocalFileSystem.deleteDirectory
        [("/d", LocalFileSystem.dirNode "/d"), ("/d/a", ⟨"/d/a", "x", false⟩)] "/d" false
      = Except.error "Directory not empty: /d" ∧
    LocalFileSystem.deleteDirectory
        [("/d", LocalFileSystem.dirNode "/d"), ("/d/a", ⟨"/d/a", "x", false⟩)] "/d" true
      = Except.ok [] ∧
    LocalFileSystem.existsPath [] "/d" = false ∧
    LocalFileSystem.existsPath [] "/d/a" = false := by
  obtain ⟨h1, fs2, h2, h3, h4, h5⟩ := c4_delete_directory
    [("/d", LocalFileSystem.dirNode "/d"), ("/d/a", ⟨"/d/a", "x", false⟩)] "/d" (by decide)
  have hok : (Except.ok fs2 : Except String LocalFS) = Except.ok [] := by rw [← h2]; rfl
  have hfs : fs2 = [] := by injection hok
  subst hfs
  exact ⟨h1 (by decide), h2, h3, h4 "/d/a" (by decide)⟩

/-- C6 (amended): in the per-file walk search of `CodeSandboxInstance`, a
file whose path matches a truthy (non-empty) `excludePattern` contributes
zero matches and no progress batch, whatever its content; the mock search's
handling is settled separately by the counterexample, since it ignores
`excludePattern`. -/
theorem c6_amended_exclusion (R : JsRegex) (pat filePath query content : String)
    (opts : CSSearchOptions) (hx : opts.excludePattern = some pat) (hne : pat ≠ "")
    (ht : R.test pat filePath = true) :
    searchInFile R filePath query opts content = [] ∧
    searchInFileBatches R filePath query opts content = [] := by
  have hex : excludedByOption R opts.excludePattern filePath = true := by
    rw [hx]; unfold excludedByOption; simp [hne, ht]
  constructor
  · unfold searchInFile; simp [hex]
  · unfold searchInFileBatches searchInFile; simp [hex]

/-- C6 (witness): the amended exclusion evaluated concretely. -/
theorem c6_witness :
    substrRegex.test "node_modules" "/node_modules/app.tsx" = true ∧
    (searchInFile substrRegex "/node_modules/app.tsx" "foo"
      { excludePattern := some "node_modules", caseSensitive := false } "foo bar" = [] ∧
    searchInFileBatches substrRegex "/node_modules/app.tsx" "foo"
      { excludePattern := some "node_modules", caseSensitive := false } "foo bar" = []) :=
  ⟨rfl, c6_amended_exclusion substrRegex "node_modules" "/node_modules/app.tsx" "foo" "foo bar"
    { excludePattern := some "node_modules", caseSensitive := false } rfl (by decide) rfl⟩

/-- C6 (counterexample): the mock walk search emits a match for a file whose
path matches the `excludePattern` (`node_modules` matches
`/node_modules/a.txt`, as witnessed by the engine model), so the search
does not always emit zero matches for excluded files. -/
theorem c6_counterexample :
    substrRegex.test "node_modules" "/node_modules/a.txt" = true ∧
    mockTextSearch [("/node_modules/a.txt", "foo")] "foo"
      { excludePattern := some "node_modules", caseSensitive := false }
      = [⟨"/node_modules/a.txt", 1, "foo", 0, 3⟩] ∧
    mockTextSearch [("/node_modules/a.txt", "foo")] "foo"
      { excludePattern := some "node_modules", caseSensitive := false } ≠ [] := by
  refine ⟨rfl, rfl, ?_⟩
  decide

/-- Splitting a character list never yields an empty list of segments. -/
theorem splitOnChar_ne_nil (sep : Char) (l : List Char) : splitOnChar sep l ≠ [] := by
  cases l with
  | nil => simp [splitOnChar]
  | cons c t =>
    simp only [splitOnChar]
    by_cases h : c = sep
    · simp [h]
    · simp only [if_neg h]
      cases splitOnChar sep t <;> simp

/-- JS `split` never returns an empty array. -/
theorem jsSplit_ne_nil (s : String) (sep : Char) : jsSplit s sep ≠ [] := by
  unfold jsSplit
  simp [List.map_eq_nil_iff, splitOnChar_ne_nil]

/-- C7: reconciling a raw range with its preview reports `lineNumber =
range.startLineNumber` always, and `previewText` is the preview line at
index `range.startLineNumber - declared starting line number` when that
index is in range, the first preview line otherwise (the split preview is
never empty, so the first line exists). -/
theorem c7_preview_reconciliation (filePath txt : String) (pm : WCPreviewMatch)
    (rest : List WCPreviewMatch) (range : WCRange) :
    (reconcileRange filePath ⟨txt, pm :: rest⟩ range).lineNumber = range.startLineNumber ∧
    (reconcileRange filePath ⟨txt, []⟩ range).lineNumber = range.startLineNumber ∧
    jsSplit txt '\n' ≠ [] ∧
    ((0 ≤ range.startLineNumber - pm.startLineNumber ∧
        range.startLineNumber - pm.startLineNumber < ((jsSplit txt '\n').length : Int)) →
      (reconcileRange filePath ⟨txt, pm :: rest⟩ range).previewText
        = (jsSplit txt '\n').getD (range.startLineNumber - pm.startLineNumber).toNat
            "(Preview line not found)") ∧
    (¬ (0 ≤ range.startLineNumber - pm.startLineNumber ∧
        range.startLineNumber - pm.startLineNumber < ((jsSplit txt '\n').length : Int)) →
      (reconcileRange filePath ⟨txt, pm :: rest⟩ range).previewText
        = (jsSplit txt '\n').getD 0 "(Preview unavailable)") := by
  refine ⟨rfl, rfl, jsSplit_ne_nil txt '\n', fun hin => ?_, fun hin => ?_⟩
  · show (if 0 ≤ range.startLineNumber - pm.startLineNumber ∧
          range.startLineNumber - pm.startLineNumber < ((jsSplit txt '\n').length : Int) then
        (jsSplit txt '\n').getD (range.startLineNumber - pm.startLineNumber).toNat
          "(Preview line not found)"
      else (jsSplit txt '\n').getD 0 "(Preview unavailable)")
      = (jsSplit txt '\n').getD (range.startLineNumber - pm.startLineNumber).toNat
          "(Preview line not found)"
    rw [if_pos hin]
  · show (if 0 ≤ range.startLineNumber - pm.startLineNumber ∧
          range.startLineNumber - pm.startLineNumber < ((jsSplit txt '\n').length : Int) then
        (jsSplit txt '\n').getD (range.startLineNumber - pm.startLineNumber).toNat
          "(Preview line not found)"
      else (jsSplit txt '\n').getD 0 "(Preview unavailable)")
      = (jsSplit txt '\n').getD 0 "(Preview unavailable)"
    rw [if_neg hin]

/-- C7 (witness): a preview declared to start at line 2 with text
`"alpha\nbeta"` reconciled against a range at line 3 reports line 3 and the
second preview line. -/
theorem c7_witness :
    (reconcileRange "/f" ⟨"alpha\nbeta", [⟨2⟩]⟩ ⟨3, 0, 2⟩).lineNumber = 3 ∧
    (reconcileRange "/f" ⟨"alpha\nbeta", [⟨2⟩]⟩ ⟨3, 0, 2⟩).previewText
      = (jsSplit "alpha\nbeta" '\n').getD ((3 : Int) - 2).toNat "(Preview line not found)" := by
  have h := c7_preview_reconciliation "/f" "alpha\nbeta" ⟨2⟩ [] ⟨3, 0, 2⟩
  exact ⟨h.1, h.2.2.2.1 (by decide)⟩

/-- Manager state preservation: reflexivity. -/
theorem preservesCore_refl {σ : Type} (m : HybridManager σ) : preservesCore m m :=
  ⟨rfl, rfl, rfl, rfl⟩

/-- Manager state preservation: updating only the adapter's backing state. -/
theorem preservesCore_update {σ : Type} (m : HybridManager σ) (s : σ) :
    preservesCore m { m with fsState := s } := ⟨rfl, rfl, rfl, rfl⟩

/-- `readFile` preserves the manager's selection state. -/
theorem readFile_preserves {σ : Type} (m : HybridManager σ) (p : String) :
    preservesCore m (m.readFile p).2 := by
  unfold HybridManager.readFile
  split
  · exact preservesCore_refl m
  · exact preservesCore_update m _

/-- `writeFile` preserves the manager's selection state. -/
theorem writeFile_preserves {σ : Type} (m : HybridManager σ) (p c : String) :
    preservesCore m (m.writeFile p c).2 := by
  unfold HybridManager.writeFile
  split
  · exact preservesCore_refl m
  · exact preservesCore_update m _

/-- `readdir` preserves the manager's selection state. -/
theorem readdir_preserves {σ : Type} (m : HybridManager σ) (p : String) :
    preservesCore m (m.readdir p).2 := by
  unfold HybridManager.readdir
  split
  · exact preservesCore_refl m
  · exact preservesCore_update m _

/-- `mkdir` preserves the manager's selection state. -/
theorem mkdir_preserves {σ : Type} (m : HybridManager σ) (p : String) (r : Bool) :
    preservesCore m (m.mkdir p r).2 := by
  unfold HybridManager.mkdir
  split
  · exact preservesCore_refl m
  · exact preservesCore_update m _

/-- `deleteFile` preserves the manager's selection state. -/
theorem deleteFile_preserves {σ : Type} (m : HybridManager σ) (p : String) :
    preservesCore m (m.deleteFile p).2 := by
  unfold HybridManager.deleteFile
  split
  · exact preservesCore_refl m
  · exact preservesCore_update m _

/-- `deleteDirectory` preserves the manager's selection state. -/
theorem deleteDirectory_preserves {σ : Type} (m : HybridManager σ) (p : String) (r : Bool) :
    preservesCore m (m.deleteDirectory p r).2 := by
  unfold HybridManager.deleteDirectory
  split
  · exact preservesCore_refl m
  · exact preservesCore_update m _

/-- `exists` preserves the manager's selection state. -/
theorem existsPath_preserves {σ : Type} (m : HybridManager σ) (p : String) :
    preservesCore m (m.existsPath p).2 := by
  unfold HybridManager.existsPath
  split
  · exact preservesCore_refl m
  · exact preservesCore_update m _

/-- `stat` preserves the manager's selection state. -/
theorem stat_preserves {σ : Type} (m : HybridManager σ) (p : String) :
    preservesCore m (m.stat p).2 := by
  unfold HybridManager.stat
  split
  · exact preservesCore_refl m
  · exact preservesCore_update m _

/-- `healthCheck` preserves the manager's selection state. -/
theorem healthCheck_preserves {σ : Type} (m : HybridManager σ) :
    preservesCore m (m.healthCheck).2 := by
  unfold HybridManager.healthCheck
  split
  · exact preservesCore_refl m
  · dsimp only
    split
    · exact readdir_preserves m "/"
    · exact readdir_preserves m "/"

/-- C8: once (and whether or not) the manager is ready, no unified operation
changes the selection: `readFile`, `writeFile`, `readdir`, `mkdir`,
`deleteFile`, `deleteDirectory`, `exists`, `stat` and `healthCheck` — for
every adapter and every success or failure outcome — leave the provider,
`isReady`, `error` and the selected adapter unchanged; `healthCheck`
returns only a boolean. -/
theorem c8_ready_ops_fix_selection (σ : Type) (m : HybridManager σ) (p c : String)
    (recursive : Bool) :
    preservesCore m (m.readFile p).2 ∧ preservesCore m (m.writeFile p c).2 ∧
    preservesCore m (m.readdir p).2 ∧ preservesCore m (m.mkdir p recursive).2 ∧
    preservesCore m (m.deleteFile p).2 ∧ preservesCore m (m.deleteDirectory p recursive).2 ∧
    preservesCore m (m.existsPath p).2 ∧ preservesCore m (m.stat p).2 ∧
    preservesCore m (m.healthCheck).2 :=
  ⟨readFile_preserves m p, writeFile_preserves m p c, readdir_preserves m p,
   mkdir_preserves m p recursive, deleteFile_preserves m p,
   deleteDirectory_preserves m p recursive, existsPath_preserves m p, stat_preserves m p,
   healthCheck_preserves m⟩

/-- C10: every match emitted by the walk-based search — in plain substring,
whole-word and regular-expression mode alike, and likewise by the mock
search — satisfies `matchCharEnd = matchCharStart + query.length`, with the
raw query's length, whatever text the engine actually matched. -/
theorem c10_match_end_is_start_plus_query_length :
    (∀ (R : JsRegex) (filePath query : String) (opts : CSSearchOptions) (content : String)
        (m : CSSearchResult), m ∈ searchInFile R filePath query opts content →
      m.matchCharEnd = m.matchCharStart + query.length) ∧
    (∀ (files : List (String × String)) (query : String) (opts : CSSearchOptions)
        (m : CSSearchResult), m ∈ mockTextSearch files query opts →
      m.matchCharEnd = m.matchCharStart + query.length) := by
  constructor
  · intro R filePath query opts content m hm
    unfold searchInFile at hm
    split at hm
    · exact absurd hm (List.not_mem_nil m)
    split at hm
    · exact absurd hm (List.not_mem_nil m)
    split at hm
    · exact absurd hm (List.not_mem_nil m)
    split at hm
    · exact absurd hm (List.not_mem_nil m)
    simp only [List.mem_filterMap] at hm
    obtain ⟨pair, hpair, hf⟩ := hm
    rw [Option.map_eq_some'] at hf
    obtain ⟨idx, hidx, hrec⟩ := hf
    subst hrec
    rfl
  · intro files query opts m hm
    unfold mockTextSearch at hm
    simp only [List.mem_flatMap, List.mem_filterMap] at hm
    obtain ⟨fe, hfe, pair, hpair, hf⟩ := hm
    rw [Option.map_eq_some'] at hf
    obtain ⟨idx, hidx, hrec⟩ := hf
    subst hrec
    rfl

/-- C10 (witness): the invariant instantiated at an emitted match of the
scenario-A search. -/
theorem c10_witness :
    (⟨"/a.txt", 1, "foo bar", 0, 3⟩ : CSSearchResult).matchCharEnd
      = (⟨"/a.txt", 1, "foo bar", 0, 3⟩ : CSSearchResult).matchCharStart
        + ("FOO" : String).length :=
  (c10_match_end_is_start_plus_query_length).1 substrRegex "/a.txt" "FOO"
    { caseSensitive := false } "foo bar\nbaz foo" ⟨"/a.txt", 1, "foo bar", 0, 3⟩
    (by decide)

end BoltDiy
